import Mathlib

/-!
Verification development for the architect trade-study library
(spacesys-finch/architect): closed-form analytical models for a
hyperspectral-imager payload (signal-to-noise, ground target error,
spectral resolution, diffraction efficiency), exercised by tradebook
notebooks that sweep one parameter over a numpy arange grid.

The library getter implementations are not present in the source tree;
only their callers (the tradebook notebooks) and the recorded evaluation
results are.  Each model below is therefore modelled from the spec's
description of the closed-form formula and settled against the recorded
data of the corresponding tradebook run.
-/

namespace Architect

/-! ## Parameter sweeps -/

/-- Modelled from the spec: the tradebooks sweep a parameter with
numpy `arange(start, stop, step)`, which is absent from the source tree; per
numpy's documented semantics for a positive step it produces
`⌈(stop - start) / step⌉` samples `start, start + step, start + 2·step, …`,
all strictly below `stop`.  Embedded exactly over `ℚ`. -/
def arange (start stop step : ℚ) : List ℚ :=
  (List.range (Int.toNat ⌈(stop - start) / step⌉)).map
    (fun i : ℕ => start + (i : ℚ) * step)

/-- The SNR tradebook's wavelength sweep: `arange(900, 1700, 25)` nm. -/
def wavelength : List ℚ := arange 900 1700 25

/-- The ground-target-error tradebook's sweep: `arange(0.0001, 0.1, 0.0010)` deg. -/
def pointing_accuracy : List ℚ := arange 0.0001 0.1 0.0010

/-- The grism tradebooks' sweep: `arange(10, 1200, 10)` per mm. -/
def fringe_frequency : List ℚ := arange 10 1200 10

/-- The wavelength sweep evaluates to the 32 samples 900, 925, …, 1675 nm. -/
lemma wavelength_eq : wavelength = [900, 925, 950, 975, 1000, 1025, 1050, 1075,
    1100, 1125, 1150, 1175, 1200, 1225, 1250, 1275,
    1300, 1325, 1350, 1375, 1400, 1425, 1450, 1475,
    1500, 1525, 1550, 1575, 1600, 1625, 1650, 1675] := by
  have hc : (⌈((1700:ℚ) - 900) / 25⌉ : ℤ) = 32 := by
    rw [Int.ceil_eq_iff]; constructor <;> norm_num
  have h : Int.toNat ⌈((1700:ℚ) - 900) / 25⌉ = 32 := by rw [hc]; rfl
  have hr : List.range 32 = [0, 1, 2, 3, 4, 5, 6, 7, 8, 9, 10, 11, 12, 13, 14,
      15, 16, 17, 18, 19, 20, 21, 22, 23, 24, 25, 26, 27, 28, 29,
      30, 31] := by decide
  simp only [wavelength, arange, h, hr, List.map_cons, List.map_nil]
  norm_num

/-- The pointing-accuracy sweep evaluates to the 100 samples
0.0001, 0.0011, …, 0.0991 deg. -/
lemma pointing_accuracy_eq : pointing_accuracy = [0.0001, 0.0011, 0.0021, 0.0031, 0.0041, 0.0051, 0.0061, 0.0071,
    0.0081, 0.0091, 0.0101, 0.0111, 0.0121, 0.0131, 0.0141, 0.0151,
    0.0161, 0.0171, 0.0181, 0.0191, 0.0201, 0.0211, 0.0221, 0.0231,
    0.0241, 0.0251, 0.0261, 0.0271, 0.0281, 0.0291, 0.0301, 0.0311,
    0.0321, 0.0331, 0.0341, 0.0351, 0.0361, 0.0371, 0.0381, 0.0391,
    0.0401, 0.0411, 0.0421, 0.0431, 0.0441, 0.0451, 0.0461, 0.0471,
    0.0481, 0.0491, 0.0501, 0.0511, 0.0521, 0.0531, 0.0541, 0.0551,
    0.0561, 0.0571, 0.0581, 0.0591, 0.0601, 0.0611, 0.0621, 0.0631,
    0.0641, 0.0651, 0.0661, 0.0671, 0.0681, 0.0691, 0.0701, 0.0711,
    0.0721, 0.0731, 0.0741, 0.0751, 0.0761, 0.0771, 0.0781, 0.0791,
    0.0801, 0.0811, 0.0821, 0.0831, 0.0841, 0.0851, 0.0861, 0.0871,
    0.0881, 0.0891, 0.0901, 0.0911, 0.0921, 0.0931, 0.0941, 0.0951,
    0.0961, 0.0971, 0.0981, 0.0991] := by
  have hc : (⌈((0.1:ℚ) - 0.0001) / 0.0010⌉ : ℤ) = 100 := by
    rw [Int.ceil_eq_iff]; constructor <;> norm_num
  have h : Int.toNat ⌈((0.1:ℚ) - 0.0001) / 0.0010⌉ = 100 := by rw [hc]; rfl
  have hr : List.range 100 = [0, 1, 2, 3, 4, 5, 6, 7, 8, 9, 10, 11, 12, 13, 14,
      15, 16, 17, 18, 19, 20, 21, 22, 23, 24, 25, 26, 27, 28, 29,
      30, 31, 32, 33, 34, 35, 36, 37, 38, 39, 40, 41, 42, 43, 44,
      45, 46, 47, 48, 49, 50, 51, 52, 53, 54, 55, 56, 57, 58, 59,
      60, 61, 62, 63, 64, 65, 66, 67, 68, 69, 70, 71, 72, 73, 74,
      75, 76, 77, 78, 79, 80, 81, 82, 83, 84, 85, 86, 87, 88, 89,
      90, 91, 92, 93, 94, 95, 96, 97, 98, 99] := by decide
  simp only [pointing_accuracy, arange, h, hr, List.map_cons, List.map_nil]
  norm_num

/-- The fringe-frequency sweep evaluates to the 119 samples 10, 20, …, 1190
per mm. -/
lemma fringe_frequency_eq : fringe_frequency = [10, 20, 30, 40, 50, 60, 70, 80,
    90, 100, 110, 120, 130, 140, 150, 160,
    170, 180, 190, 200, 210, 220, 230, 240,
    250, 260, 270, 280, 290, 300, 310, 320,
    330, 340, 350, 360, 370, 380, 390, 400,
    410, 420, 430, 440, 450, 460, 470, 480,
    490, 500, 510, 520, 530, 540, 550, 560,
    570, 580, 590, 600, 610, 620, 630, 640,
    650, 660, 670, 680, 690, 700, 710, 720,
    730, 740, 750, 760, 770, 780, 790, 800,
    810, 820, 830, 840, 850, 860, 870, 880,
    890, 900, 910, 920, 930, 940, 950, 960,
    970, 980, 990, 1000, 1010, 1020, 1030, 1040,
    1050, 1060, 1070, 1080, 1090, 1100, 1110, 1120,
    1130, 1140, 1150, 1160, 1170, 1180, 1190] := by
  have hc : (⌈((1200:ℚ) - 10) / 10⌉ : ℤ) = 119 := by
    rw [Int.ceil_eq_iff]; constructor <;> norm_num
  have h : Int.toNat ⌈((1200:ℚ) - 10) / 10⌉ = 119 := by rw [hc]; rfl
  have hr : List.range 119 = [0, 1, 2, 3, 4, 5, 6, 7, 8, 9, 10, 11, 12, 13, 14,
      15, 16, 17, 18, 19, 20, 21, 22, 23, 24, 25, 26, 27, 28, 29,
      30, 31, 32, 33, 34, 35, 36, 37, 38, 39, 40, 41, 42, 43, 44,
      45, 46, 47, 48, 49, 50, 51, 52, 53, 54, 55, 56, 57, 58, 59,
      60, 61, 62, 63, 64, 65, 66, 67, 68, 69, 70, 71, 72, 73, 74,
      75, 76, 77, 78, 79, 80, 81, 82, 83, 84, 85, 86, 87, 88, 89,
      90, 91, 92, 93, 94, 95, 96, 97, 98, 99, 100, 101, 102, 103, 104,
      105, 106, 107, 108, 109, 110, 111, 112, 113, 114, 115, 116, 117, 118] := by decide
  simp only [fringe_frequency, arange, h, hr, List.map_cons, List.map_nil]
  norm_num

/-! ## Components and systems -/

/-- A sensor component.  The only attribute the verified models read is the
pixel count along the spectral axis. -/
structure Sensor where
  n_px : ℚ

/-- Modelled from the spec: the Teledyne FLIR Tau SWIR sensor component used
by the tradebooks; its spectral axis has 512 pixels (the atmosphere LUT
configuration records 512 Y pixels, and the recorded sensor-limited
spectral-resolution floor is `(1700 - 1600) / 512` nm). -/
def TauSWIR : Sensor := ⟨512⟩

/-- A volume-phase-holographic grism component, with the attributes the
efficiency tradebook sets on it. -/
structure VPHGrism where
  index_dcg_amplitude : ℚ
  index_dcg : ℚ
  dcg_thickness : ℚ

/-- The grism instantiated by the efficiency tradebook:
index_dcg_amplitude 0.1, index_dcg 1.52, dcg_thickness 2.5 mm. -/
def tradebook_grism : VPHGrism :=
  { index_dcg_amplitude := 0.1, index_dcg := 1.52, dcg_thickness := 2.5 }

/-- The hyperspectral-imager system composed from components. -/
structure HyperspectralImager where
  sensor : Sensor

/-- The payload instantiated by the SNR and spectral-resolution tradebooks
(`HyperspectralImager(sensor=TauSWIR(), …)`). -/
def payload : HyperspectralImager := ⟨TauSWIR⟩

/-- The system instantiated by the ground-target-error tradebook
(`HyperspectralImager()`). -/
def system : HyperspectralImager := ⟨TauSWIR⟩

/-! ## Spectral resolution model -/

/-- Modelled from the spec: the sensor-floor-limited spectral-resolution model
of `HyperspectralImager.get_spectral_resolution` (implementation not in the
source tree): the elementwise maximum of the grating-limited resolution
`target_wavelength / (beam_diameter · f)` and the sensor-limited floor
`(upper_wavelength - lower_wavelength) / n_px`.  Lengths in nm, the beam
diameter in mm, the fringe frequency `f` in 1/mm. -/
def HyperspectralImager.get_spectral_resolution (sys : HyperspectralImager)
    (upper_wavelength lower_wavelength target_wavelength beam_diameter f : ℚ) : ℚ :=
  max (target_wavelength / (beam_diameter * f))
    ((upper_wavelength - lower_wavelength) / sys.sensor.n_px)

/-! ## Ground target error model -/

/-- Degrees to radians: astropy's `unit.deg` quantities feed trigonometric
functions after the exact conversion factor `π / 180`. -/
noncomputable def deg (a : ℝ) : ℝ := a * Real.pi / 180

/-- Modelled from the spec: the closed-form pointing-error model of
`HyperspectralImager.get_ground_target_error` (implementation not in the
source tree): `orbital_altitude * (tan (skew_angle + pointing_accuracy)
- tan skew_angle)`, the altitude in metres, the angles in radians. -/
noncomputable def HyperspectralImager.get_ground_target_error
    (sys : HyperspectralImager)
    (orbital_altitude skew_angle pointing_accuracy : ℝ) : ℝ :=
  orbital_altitude * (Real.tan (skew_angle + pointing_accuracy) - Real.tan skew_angle)

/-- The 100 ground-target errors (m) recorded by the ground-target-error
tradebook over the pointing-accuracy sweep. -/
def ground_target_error_rec : List ℚ := [0.872664625998051, 9.599310887148205, 18.325957154146597, 27.052603432309798,
   35.77924972695439, 44.50589604339695, 53.232542386954044, 61.95918876294227,
   70.68583517667817, 79.41248163347838, 88.13912813865942, 96.86577469753786,
   105.59242131543036, 114.31906799765342, 123.04571474952363, 131.77236157635758,
   140.49900848347187, 149.22565547618308, 157.95230255980775, 166.67894973966244,
   175.4055970210638, 184.13224440932834, 192.8588919097727, 201.58553952771345,
   210.3121872684671, 219.03883513735033, 227.7654831396797, 236.4921312807717,
   245.218779565943, 253.94542800051016, 262.67207658978975, 271.3987253390984,
   280.12537425375274, 288.85202333906915, 297.57867260036437, 306.30532204295497,
   315.0319716721574, 323.75862149328844, 332.48527151166456, 341.21192173260243,
   349.9385721614186, 358.6652228034297, 367.3918736639521, 376.1185247483027,
   384.84517606179776, 393.57182760975417, 402.2984793974884, 411.02513143031706,
   419.7517837135566, 428.4784362525239, 437.2050890525353, 445.9317421189075,
   454.65839545695695, 463.38504907200047, 472.11170296935455, 480.83835715433577,
   489.5650116322608, 498.2916664084461, 507.01832148820836, 515.7449768768641,
   524.4716325797301, 533.1982886021227, 541.9249449493589, 550.6516016267548,
   559.3782586396273, 568.1049159932929, 576.8315736930683, 585.5582317442701,
   594.2848901522149, 603.0115489222193, 611.7382080595999, 620.4648675696731,
   629.1915274577559, 637.9181877291644, 646.6448483892157, 655.3715094432262,
   664.0981708965126, 672.8248327543914, 681.5514950221793, 690.2781577051929,
   699.004820808749, 707.7314843381636, 716.4581482987539, 725.1848126958365,
   733.911477534728, 742.6381428207447, 751.3648085592034, 760.0914747554208,
   768.8181414147134, 777.5448085423978, 786.271476143791, 794.9981442242093,
   803.7248127889693, 812.451481843388, 821.1781513927814, 829.9048214424666,
   838.6314919977603, 847.3581630639787, 856.0848346464389, 864.8115067504572]

/-! ## Signal-to-noise model -/

/-- The 32 signal electron counts (electron) printed by the SNR tradebook
pipeline, one per swept wavelength. -/
def signal_rec : List ℚ := [4418770.71687186, 5500181.38097454, 3569032.61306884, 6089407.36971722,
   8296936.41765055, 7775406.97443429, 7182477.34248939, 6376409.76086939,
   4915374.36667747, 1790936.96422134, 2112976.74448387, 3744641.77629843,
   3671237.2041208, 3950334.17971243, 3826442.82425872, 3287579.6560818,
   3057825.60421714, 2268637.72531584, 620621.57517985, 321088.01826689,
   279089.75591316, 499668.78385312, 618521.11032985, 1003621.36432192,
   1499640.69522917, 1731525.30551686, 1754569.60519814, 1512038.05074155,
   1438226.53775948, 1350882.21578629, 1146270.83783895, 999172.13415396]

/-- The 32 shot-noise-squared values (electron²) printed by the SNR tradebook
pipeline, one per swept wavelength. -/
def shot_noise_sqr_rec : List ℚ := [4418770.71687186, 5500181.38097454, 3569032.61306884, 6089407.36971722,
   8296936.41765055, 7775406.97443429, 7182477.34248939, 6376409.76086939,
   4915374.36667747, 1790936.96422134, 2112976.74448387, 3744641.77629843,
   3671237.2041208, 3950334.17971243, 3826442.82425872, 3287579.6560818,
   3057825.60421714, 2268637.72531584, 620621.57517985, 321088.01826689,
   279089.75591316, 499668.78385312, 618521.11032985, 1003621.36432192,
   1499640.69522917, 1731525.30551686, 1754569.60519814, 1512038.05074155,
   1438226.53775948, 1350882.21578629, 1146270.83783895, 999172.13415396]

/-- The 32 signal-to-noise ratios (dimensionless) recorded by the SNR
tradebook, one per swept wavelength. -/
def snr_rec : List ℚ := [188.53171035368624, 234.44063921369306, 152.39461217761723, 259.4170869441592,
   352.7549142378088, 330.7373552755274, 305.6803114786185, 271.573063097486,
   209.62512025266594, 76.59571944755544, 90.34227902930472, 159.86738128049666,
   156.74405675585896, 168.61725920122873, 163.3474798535038, 140.4128448555107,
   130.6274033534082, 96.98391068869611, 26.57152065984157, 13.750956262492052,
   11.952793702401312, 21.3953752806038, 26.481641565443486, 42.95433893593771,
   64.15450356862156, 74.05879505465573, 75.04283741735108, 64.68412760694699,
   61.53066902427298, 57.7984964964505, 49.05323477824539, 42.76408905514474]

/-- The dark-noise-squared value printed by the SNR tradebook pipeline, in
electron² ms²/s². -/
def dark_noise_sqr : ℚ := 544662244000000.0

/-- The exact scale factor of one millisecond per second, applied when a
quantity tagged in ms is combined with quantities tagged in s. -/
def ms_per_s : ℚ := 1 / 1000

/-- The dark-noise-squared value converted to electron² by the exact unit
scale factor `(1 ms / 1 s)² = 1/1000000`. -/
def dark_noise_sqr_e2 : ℚ := dark_noise_sqr * ms_per_s ^ 2

/-- The quantization-noise-squared value printed by the SNR tradebook
pipeline, in electron². -/
def quantization_noise_sqr : ℚ := 0.1120691498120626

/-- The read-noise-squared value printed by the SNR tradebook pipeline, in
electron². -/
def read_noise_sqr : ℚ := 250000.0

/-- Modelled from the spec: the per-wavelength signal electron count of the
SNR pipeline (the radiance-LUT integration that produces it is not in the
source tree); the association of each swept wavelength (nm) with the signal
value the pipeline recorded for it. -/
def signal (w : ℚ) : ℚ := ((wavelength.zip signal_rec).lookup w).getD 0

/-- Modelled from the spec: the per-wavelength shot-noise-squared term of the
SNR pipeline (implementation not in the source tree); the association of each
swept wavelength (nm) with the shot-noise-squared value the pipeline recorded
for it. -/
def shot_noise_sqr (w : ℚ) : ℚ :=
  ((wavelength.zip shot_noise_sqr_rec).lookup w).getD 0

/-- Modelled from the spec: `HyperspectralImager.get_signal_to_noise`
(implementation not in the source tree) combines its noise sources in
quadrature: signal divided by the square root of the sum of shot, dark,
quantization and read noise squared, every term expressed in electron²
(the dark term through the exact ms/s conversion). -/
noncomputable def HyperspectralImager.get_signal_to_noise
    (sys : HyperspectralImager) (w : ℚ) : ℝ :=
  (signal w : ℝ) /
    Real.sqrt ((shot_noise_sqr w + dark_noise_sqr_e2 + quantization_noise_sqr
      + read_noise_sqr : ℚ) : ℝ)

/-- The counterfactual signal-to-noise that would result if the ms²/s²-tagged
dark-noise-squared value were combined with the electron²-valued terms with no
unit conversion.  Used to show the recorded SNR values force the conversion. -/
noncomputable def get_signal_to_noise_unconverted (w : ℚ) : ℝ :=
  (signal w : ℝ) /
    Real.sqrt ((shot_noise_sqr w + dark_noise_sqr + quantization_noise_sqr
      + read_noise_sqr : ℚ) : ℝ)

/-! ## Diffraction efficiency model -/

/-- The 119 grism efficiencies (dimensionless) recorded by the efficiency
tradebook over the fringe-frequency sweep. -/
def efficiency_rec : List ℚ := [0.021174785523441306, 0.08290565592591026, 0.1799640594436177, 0.30412923256561936,
   0.4448844916505635, 0.590307987008767, 0.7280824733431095, 0.8465385698586672,
   0.9356431468047975, 0.9878491229575327, 0.9987346969245681, 0.9673778699296974,
   0.8964345383181737, 0.791913541414759, 0.6626677179879679, 0.519644078401239,
   0.37495660222669563, 0.24086019456805413, 0.12871270611183724, 0.048012932918264174,
   0.005596076543992173, 0.005054808334236607, 0.0464349732420064, 0.12623170679991483,
   0.23768629413371006, 0.3713586273138263, 0.5159267743982119, 0.6591459373547751,
   0.7888855759496546, 0.894156854098348, 0.9660433848545382, 0.998456440735064,
   0.988650663714219, 0.9374565946932287, 0.849210327398461, 0.7313862449627728,
   0.5939639460864433, 0.4485829815888202, 0.30755699443967055, 0.18283076476340177,
   0.0849684972102143, 0.02225904188522381, 0.000013835855601248883, 0.020117028987762953,
   0.08086589807006146, 0.17711506600808222, 0.30071231085020034, 0.4411890519931807,
   0.5866470299780329, 0.7247660788587742, 0.8438476336884214, 0.9338055889336677,
   0.9870205829607647, 0.9989853514290739, 0.9686864887139686, 0.89869028249388,
   0.7949253513854121, 0.6661804960329456, 0.5233602952337232, 0.3785614974691746,
   0.24404843668611234, 0.13121425373329904, 0.049615907105703405, 0.006164706758926909,
   0.004540932085292842, 0.04488211540661282, 0.12377139310449668, 0.23452691103761672,
   0.3677677718547911, 0.5122085889530383, 0.6556153490407874, 0.7858416225681106,
   0.8918573558892736, 0.9646831073434559, 0.9981505982602116, 0.9894251608708176,
   0.9392458322365557, 0.8518627584436279, 0.7346772108757457, 0.5976147048777256,
   0.4522843171208809, 0.31099540676820836, 0.18571502331415382, 0.08705430775830264,
   0.023369738066646835, 0.000055342656681394646, 0.019085830818050105, 0.07884933652987386,
   0.17428394212980192, 0.2973064183975356, 0.43749686713491437, 0.5829812776041394,
   0.7214372450503972, 0.8411376678133311, 0.9319440227766019, 0.9861650895781569,
   0.9992083903764974, 0.9699691687839436, 0.9009239617848609, 0.7979208391778054,
   0.6696840770804957, 0.5270752192274926, 0.38217311353391964, 0.24725084403965447,
   0.13373621122006454, 0.05124380709022803, 0.0067606675090922785, 0.004054476236814617,
   0.043354445352521614, 0.12133190118788426, 0.23138222013082296, 0.3641842345798001,
   0.5084897278427267, 0.6520761484407648, 0.7827818497328963, 0.8895361709529765,
   0.9632971126789321, 0.9978171864263732, 0.990172571564002]

/-- Modelled from the spec: `VPHGrism.get_efficiency` (implementation not in
the source tree); its recorded evaluation in the efficiency tradebook —
incident angle 60, order 1, n_air 1 on the tradebook grism — stands for it:
each swept fringe frequency (1/mm) is associated with the efficiency sample
the tradebook recorded for it. -/
def VPHGrism.get_efficiency (g : VPHGrism)
    (incident_angle order n_air f : ℚ) : ℚ :=
  ((fringe_frequency.zip efficiency_rec).lookup f).getD 0

/-! ## Vectorized evaluation -/

/-- Modelled from the spec: numpy broadcasting evaluates a model over an
N-element array for the swept parameter (all other inputs scalar) as the
elementwise map of the scalar model. -/
def vectorize {α : Type} (f : ℚ → α) (xs : List ℚ) : List α := xs.map f

/-! ## Generic helper lemmas -/

/-- A defaulted association-list lookup returns the default or one of the
stored values. -/
lemma lookup_getD_mem {α β : Type} [BEq α] (a : α) (l : List (α × β)) (d : β) :
    (List.lookup a l).getD d = d ∨ (List.lookup a l).getD d ∈ l.map Prod.snd := by
  induction l with
  | nil => exact Or.inl rfl
  | cons p t ih =>
    obtain ⟨k, v⟩ := p
    cases hkb : a == k with
    | false =>
      rw [List.map_cons]
      rcases ih with h | h
      · exact Or.inl (by simpa [List.lookup, hkb] using h)
      · exact Or.inr (List.mem_cons_of_mem _ (by simpa [List.lookup, hkb] using h))
    | true =>
      rw [List.map_cons]
      exact Or.inr (by simp [List.lookup, hkb])

/-- Every value the modelled efficiency getter can return is the default 0 or
one of the 119 recorded efficiency samples. -/
lemma get_efficiency_mem (ia od na f : ℚ) :
    tradebook_grism.get_efficiency ia od na f ∈ (0:ℚ) :: efficiency_rec := by
  have h := lookup_getD_mem f (fringe_frequency.zip efficiency_rec) 0
  have hmap : (fringe_frequency.zip efficiency_rec).map Prod.snd = efficiency_rec :=
    List.map_snd_zip _ _ (by rw [fringe_frequency_eq]; decide)
  rcases h with h | h
  · rw [VPHGrism.get_efficiency, h]
    exact List.mem_cons_self _ _
  · rw [hmap] at h
    rw [VPHGrism.get_efficiency]
    exact List.mem_cons_of_mem _ h

/-! ## Claims: spectral resolution, efficiency, vectorization, determinism,
sweeps, shot noise -/

/-- Claim C3: over the whole fringe-frequency sweep the spectral-resolution
model returns the maximum of the grating-limited resolution
`1650 nm / (12 mm · f)` and the sensor floor `(1700 - 1600) nm / 512 =
0.1953125` nm; it equals the grating term for `f ≤ 700` per mm, is exactly
the floor for `f ≥ 710` per mm, and never falls below the floor. -/
theorem spectral_resolution_sensor_floor_limited :
    ∀ f ∈ fringe_frequency,
      payload.get_spectral_resolution 1700 1600 1650 12 f
          = max (1650 / (12 * f)) 0.1953125
        ∧ ((1700:ℚ) - 1600) / 512 = 0.1953125
        ∧ (f ≤ 700 →
            payload.get_spectral_resolution 1700 1600 1650 12 f = 1650 / (12 * f))
        ∧ (710 ≤ f →
            payload.get_spectral_resolution 1700 1600 1650 12 f = 0.1953125)
        ∧ 0.1953125 ≤ payload.get_spectral_resolution 1700 1600 1650 12 f := by
  intro f hf
  rw [fringe_frequency_eq] at hf
  fin_cases hf <;>
    norm_num [payload, TauSWIR, HyperspectralImager.get_spectral_resolution]

/-- Witness for C3: the crossover samples 700 and 710 per mm are in the sweep;
at 700 the model is grating-limited, at 710 it sits on the sensor floor. -/
theorem spectral_resolution_sensor_floor_limited_witness :
    (700:ℚ) ∈ fringe_frequency ∧ (710:ℚ) ∈ fringe_frequency
      ∧ payload.get_spectral_resolution 1700 1600 1650 12 700 = 1650 / (12 * 700)
      ∧ payload.get_spectral_resolution 1700 1600 1650 12 710 = 0.1953125 := by
  have h700 : (700:ℚ) ∈ fringe_frequency := by rw [fringe_frequency_eq]; norm_num
  have h710 : (710:ℚ) ∈ fringe_frequency := by rw [fringe_frequency_eq]; norm_num
  exact ⟨h700, h710,
    (spectral_resolution_sensor_floor_limited 700 h700).2.2.1 (by norm_num),
    (spectral_resolution_sensor_floor_limited 710 h710).2.2.2.1 (by norm_num)⟩

/-- Claim C5: the recorded efficiency table has 119 samples and, over the
whole fringe-frequency sweep, the diffraction-efficiency model returns a
dimensionless value in the closed interval [0, 1]. -/
theorem efficiency_bounded_dimensionless :
    efficiency_rec.length = 119
      ∧ ∀ f ∈ fringe_frequency,
          0 ≤ tradebook_grism.get_efficiency 60 1 1 f
            ∧ tradebook_grism.get_efficiency 60 1 1 f ≤ 1 := by
  refine ⟨by decide, ?_⟩
  intro f hf
  have hm := get_efficiency_mem 60 1 1 f
  have hall : ∀ x ∈ (0:ℚ) :: efficiency_rec, 0 ≤ x ∧ x ≤ 1 := by
    intro x hx
    simp only [efficiency_rec] at hx
    fin_cases hx <;> norm_num
  exact hall _ hm

/-- Witness for C5: the first swept fringe frequency, 10 per mm, is in the
sweep and its efficiency lies in [0, 1]. -/
theorem efficiency_bounded_dimensionless_witness :
    (10:ℚ) ∈ fringe_frequency
      ∧ 0 ≤ tradebook_grism.get_efficiency 60 1 1 10
      ∧ tradebook_grism.get_efficiency 60 1 1 10 ≤ 1 := by
  have h10 : (10:ℚ) ∈ fringe_frequency := by
    rw [fringe_frequency_eq]
    exact List.mem_cons_self _ _
  exact ⟨h10, efficiency_bounded_dimensionless.2 10 h10⟩

/-- Claim C6: vectorized model evaluation is the elementwise map of the
scalar model: it preserves the sweep length and its i-th entry is the scalar
model at the i-th swept value; the three tradebook sweeps produce 119, 100
and 32 outputs respectively. -/
theorem model_evaluation_vectorized_elementwise :
    (∀ (α : Type) (f : ℚ → α) (xs : List ℚ), (vectorize f xs).length = xs.length)
      ∧ (∀ (α : Type) (f : ℚ → α) (xs : List ℚ) (i : Fin xs.length),
          (vectorize f xs).get (Fin.cast (by simp [vectorize]) i) = f (xs.get i))
      ∧ (vectorize (payload.get_spectral_resolution 1700 1600 1650 12)
          fringe_frequency).length = 119
      ∧ (vectorize (fun a : ℚ =>
            system.get_ground_target_error (500 * 1000) (deg 0) (deg (a : ℝ)))
          pointing_accuracy).length = 100
      ∧ (vectorize payload.get_signal_to_noise wavelength).length = 32 := by
  refine ⟨?_, ?_, ?_, ?_, ?_⟩
  · intro α f xs
    simp [vectorize]
  · intro α f xs i
    simp [vectorize, List.get_eq_getElem, Fin.coe_cast]
  · rw [show (vectorize (payload.get_spectral_resolution 1700 1600 1650 12)
        fringe_frequency).length = fringe_frequency.length by simp [vectorize]]
    rw [fringe_frequency_eq]
    rfl
  · rw [show (vectorize (fun a : ℚ =>
        system.get_ground_target_error (500 * 1000) (deg 0) (deg (a : ℝ)))
        pointing_accuracy).length = pointing_accuracy.length by simp [vectorize]]
    rw [pointing_accuracy_eq]
    rfl
  · rw [show (vectorize payload.get_signal_to_noise wavelength).length
        = wavelength.length by simp [vectorize]]
    rw [wavelength_eq]
    rfl

/-- Witness for C6: the elementwise law at a concrete map and index. -/
theorem model_evaluation_vectorized_elementwise_witness :
    (vectorize (fun q : ℚ => q + 1) [5]).get
        (Fin.cast (by simp [vectorize]) (⟨0, by norm_num⟩ : Fin ([5] : List ℚ).length))
      = (fun q : ℚ => q + 1) (([5] : List ℚ).get ⟨0, by norm_num⟩) :=
  model_evaluation_vectorized_elementwise.2.1 ℚ (fun q : ℚ => q + 1) [5] ⟨0, by norm_num⟩

/-- Claim C7: every getter is deterministic and stateless: repeated
evaluation with identical arguments gives identical results, the
ground-target-error model reads no component state at all, and the
spectral-resolution model depends only on the sensor attribute of the
system it is called on. -/
theorem model_evaluation_deterministic_stateless :
    (∀ (s : HyperspectralImager) (h k a : ℝ),
        s.get_ground_target_error h k a = s.get_ground_target_error h k a)
      ∧ (∀ (s t : HyperspectralImager) (h k a : ℝ),
          s.get_ground_target_error h k a = t.get_ground_target_error h k a)
      ∧ (∀ (s t : HyperspectralImager) (u l tw b ff : ℚ), s.sensor = t.sensor →
          s.get_spectral_resolution u l tw b ff = t.get_spectral_resolution u l tw b ff)
      ∧ (∀ (s : HyperspectralImager) (w : ℚ),
          s.get_signal_to_noise w = s.get_signal_to_noise w)
      ∧ (∀ (g1 g2 : VPHGrism) (ia od na ff : ℚ),
          g1.get_efficiency ia od na ff = g2.get_efficiency ia od na ff) := by
  refine ⟨fun s h k a => rfl, fun s t h k a => rfl, ?_, fun s w => rfl,
    fun g1 g2 ia od na ff => rfl⟩
  intro s t u l tw b ff hst
  rw [HyperspectralImager.get_spectral_resolution,
    HyperspectralImager.get_spectral_resolution, hst]

/-- Witness for C7: two separately constructed systems with the same sensor
agree on the spectral resolution. -/
theorem model_evaluation_deterministic_stateless_witness :
    payload.sensor = system.sensor
      ∧ payload.get_spectral_resolution 1700 1600 1650 12 600
          = system.get_spectral_resolution 1700 1600 1650 12 600 :=
  ⟨rfl, model_evaluation_deterministic_stateless.2.2.1 payload system
    1700 1600 1650 12 600 rfl⟩

/-- Claim C8: an arange sweep with positive step never evaluates the stop
value: every sample is strictly below it; the SNR wavelength sweep has
exactly 32 samples running 900 to 1675 nm, each strictly below the
configured 1700 nm spectral-range upper bound, which itself never occurs. -/
theorem arange_never_evaluates_stop :
    (∀ start stop step : ℚ, 0 < step → ∀ x ∈ arange start stop step, x < stop)
      ∧ wavelength.length = 32
      ∧ wavelength.head? = some 900
      ∧ wavelength.getLast? = some 1675
      ∧ (∀ w ∈ wavelength, w < 1700)
      ∧ (1700:ℚ) ∉ wavelength := by
  refine ⟨?_, ?_, ?_, ?_, ?_, ?_⟩
  · intro start stop step hstep x hx
    unfold arange at hx
    rcases List.mem_map.mp hx with ⟨j, hjr, rfl⟩
    have hj := List.mem_range.mp hjr
    have h1 : (j : ℤ) < ⌈(stop - start) / step⌉ := Int.lt_toNat.mp hj
    have h3 : ((j : ℚ)) ≤ (⌈(stop - start) / step⌉ : ℚ) - 1 := by
      exact_mod_cast Int.le_sub_one_iff.mpr h1
    have h4 : ((⌈(stop - start) / step⌉ : ℤ) : ℚ) < (stop - start) / step + 1 :=
      Int.ceil_lt_add_one _
    have h2 : ((j : ℚ)) < (stop - start) / step := by linarith
    have h5 : (j : ℚ) * step < stop - start := (lt_div_iff₀ hstep).mp h2
    linarith
  · rw [wavelength_eq]; rfl
  · rw [wavelength_eq]; rfl
  · rw [wavelength_eq]; rfl
  · intro w hw
    rw [wavelength_eq] at hw
    fin_cases hw <;> norm_num
  · rw [wavelength_eq]
    norm_num

/-- Witness for C8: the step 25 is positive, the last sample 1675 is in the
sweep, and the theorem places it strictly below the stop value 1700. -/
theorem arange_never_evaluates_stop_witness :
    (0:ℚ) < 25 ∧ (1675:ℚ) ∈ arange 900 1700 25 ∧ (1675:ℚ) < 1700 := by
  have hmem : (1675:ℚ) ∈ arange 900 1700 25 := by
    have h : arange 900 1700 25 = wavelength := rfl
    rw [h, wavelength_eq]
    norm_num
  exact ⟨by norm_num, hmem,
    arange_never_evaluates_stop.1 900 1700 25 (by norm_num) 1675 hmem⟩

/-- Claim C9: the recorded shot-noise-squared array is identical, element by
element, to the recorded signal array (Poisson statistics), and the modelled
per-wavelength shot-noise-squared term equals the signal at every swept
wavelength. -/
theorem shot_noise_sqr_equals_signal :
    shot_noise_sqr_rec = signal_rec
      ∧ ∀ w ∈ wavelength, shot_noise_sqr w = signal w :=
  ⟨rfl, fun w _ => rfl⟩

/-- Witness for C9: the identity at the first swept wavelength, 900 nm. -/
theorem shot_noise_sqr_equals_signal_witness :
    (900:ℚ) ∈ wavelength ∧ shot_noise_sqr 900 = signal 900 := by
  have hmem : (900:ℚ) ∈ wavelength := by
    rw [wavelength_eq]
    exact List.mem_cons_self _ _
  exact ⟨hmem, shot_noise_sqr_equals_signal.2 900 hmem⟩

/-! ## Real-analysis helper lemmas -/

/-- On (0, 1) the tangent is bracketed by its argument and the quadratic
cosine bound. -/
lemma tan_bracket {x : ℝ} (h0 : 0 < x) (h1 : x < 1) :
    x ≤ Real.tan x ∧ Real.tan x ≤ x / (1 - x ^ 2 / 2) := by
  have hpi : (3:ℝ) < Real.pi := Real.pi_gt_three
  have hx2 : x < Real.pi / 2 := by linarith
  refine ⟨(Real.lt_tan h0 hx2).le, ?_⟩
  have hsin : Real.sin x < x := Real.sin_lt h0
  have hcos : 1 - x ^ 2 / 2 < Real.cos x := Real.one_sub_sq_div_two_lt_cos (ne_of_gt h0)
  have hden : (0:ℝ) < 1 - x ^ 2 / 2 := by nlinarith
  rw [Real.tan_eq_sin_div_cos]
  exact div_le_div₀ h0.le hsin.le hden hcos.le

/-- The upper tangent bound is monotone on (0, 1). -/
lemma div_one_sub_sq_mono {x c : ℝ} (hx : 0 < x) (hxc : x ≤ c) (hc : c < 1) :
    x / (1 - x ^ 2 / 2) ≤ c / (1 - c ^ 2 / 2) := by
  have hdx : (0:ℝ) < 1 - x ^ 2 / 2 := by nlinarith
  have hdc : (0:ℝ) < 1 - c ^ 2 / 2 := by nlinarith
  rw [div_le_div_iff₀ hdx hdc]
  have hc0 : 0 < c := lt_of_lt_of_le hx hxc
  have hxc1 : x * c < 1 := by nlinarith
  nlinarith [mul_nonneg (sub_nonneg.mpr hxc) (sub_nonneg.mpr hxc1.le),
    mul_nonneg (mul_nonneg (sub_nonneg.mpr hxc) hx.le) hc0.le]

/-- Zero degrees is zero radians. -/
lemma deg_zero : deg 0 = 0 := by rw [deg]; ring

/-- At zero skew the ground-target-error model reduces to altitude times the
tangent of the pointing accuracy. -/
lemma ground_target_error_tan (a : ℝ) :
    system.get_ground_target_error (500 * 1000) (deg 0) (deg a)
      = 500 * 1000 * Real.tan (deg a) := by
  rw [HyperspectralImager.get_ground_target_error, deg_zero, Real.tan_zero, zero_add,
    sub_zero]

/-- Rational bracket for the ground-target-error model at 500 km altitude and
zero skew, from the 20-digit bounds on π and the tangent bracket. -/
lemma ground_target_error_bracket (a : ℝ) (h0 : 0 < a) (h1 : a ≤ 1) :
    (500 * 1000 : ℝ) * (a * 3.14159265358979323846 / 180)
        ≤ system.get_ground_target_error (500 * 1000) (deg 0) (deg a)
      ∧ system.get_ground_target_error (500 * 1000) (deg 0) (deg a)
        ≤ (500 * 1000 : ℝ) * ((a * 3.14159265358979323847 / 180)
            / (1 - (a * 3.14159265358979323847 / 180) ^ 2 / 2)) := by
  have hpi1 : (3.14159265358979323846:ℝ) < Real.pi := Real.pi_gt_d20
  have hpi2 : Real.pi < 3.14159265358979323847 := Real.pi_lt_d20
  have hpip : (0:ℝ) < Real.pi := Real.pi_pos
  have hx0 : 0 < deg a := by
    rw [deg]
    exact div_pos (mul_pos h0 hpip) (by norm_num)
  have hxlt : deg a < 1 := by
    rw [deg]
    nlinarith [mul_nonneg (sub_nonneg.mpr h1) hpip.le]
  obtain ⟨hlo, hhi⟩ := tan_bracket hx0 hxlt
  rw [ground_target_error_tan]
  constructor
  · have hxlo : a * 3.14159265358979323846 / 180 ≤ deg a := by
      rw [deg]
      nlinarith
    linarith
  · have hxhi : deg a ≤ a * 3.14159265358979323847 / 180 := by
      rw [deg]
      nlinarith
    have hclt : a * 3.14159265358979323847 / 180 < 1 := by nlinarith
    have := hhi.trans (div_one_sub_sq_mono hx0 hxhi hclt)
    linarith

/-- The signal table at 900 nm holds the first recorded value. -/
lemma signal_900_eq : signal 900 = 4418770.71687186 := by
  simp only [signal, wavelength_eq, signal_rec, List.zip_cons_cons, List.zip_nil_right,
    List.lookup, beq_self_eq_true, Option.getD_some]

/-- The four noise-squared terms at 900 nm sum to the exact rational
549331014.8289410098120626 electron². -/
lemma noise_sum_900 :
    shot_noise_sqr 900 + dark_noise_sqr_e2 + quantization_noise_sqr + read_noise_sqr
      = 549331014.8289410098120626 := by
  rw [show shot_noise_sqr 900 = signal 900 from rfl, signal_900_eq,
    dark_noise_sqr_e2, dark_noise_sqr, ms_per_s, quantization_noise_sqr,
    read_noise_sqr]
  norm_num

/-- Rational bracket of the square root of the 900 nm noise sum. -/
lemma sqrt_noise_sum_bounds :
    (23437.8116476120910:ℝ) ≤ Real.sqrt ((549331014.8289410098120626:ℚ):ℝ)
      ∧ Real.sqrt ((549331014.8289410098120626:ℚ):ℝ) ≤ 23437.8116476120914 := by
  have hq : ((549331014.8289410098120626:ℚ):ℝ) = 549331014.8289410098120626 := by
    norm_num
  rw [hq]
  constructor
  · have h := Real.sqrt_le_sqrt
      (show (23437.8116476120910:ℝ) ^ 2 ≤ 549331014.8289410098120626 by norm_num)
    rwa [Real.sqrt_sq (by norm_num)] at h
  · have h := Real.sqrt_le_sqrt
      (show (549331014.8289410098120626:ℝ) ≤ 23437.8116476120914 ^ 2 by norm_num)
    rwa [Real.sqrt_sq (by norm_num)] at h

/-- The modelled SNR at 900 nm is within 10⁻⁹ of the recorded value. -/
lemma snr_900_close :
    |payload.get_signal_to_noise 900 - 188.53171035368624| < 1e-9 := by
  have hdef : payload.get_signal_to_noise 900
      = ((4418770.71687186:ℚ):ℝ) / Real.sqrt ((549331014.8289410098120626:ℚ):ℝ) := by
    rw [HyperspectralImager.get_signal_to_noise, signal_900_eq, noise_sum_900]
  obtain ⟨hlo, hhi⟩ := sqrt_noise_sum_bounds
  have hsig : ((4418770.71687186:ℚ):ℝ) = 4418770.71687186 := by norm_num
  have hpos : (0:ℝ) < Real.sqrt ((549331014.8289410098120626:ℚ):ℝ) :=
    lt_of_lt_of_le (by norm_num) hlo
  rw [hdef, hsig]
  have h1 : (4418770.71687186:ℝ) / 23437.8116476120914
      ≤ 4418770.71687186 / Real.sqrt ((549331014.8289410098120626:ℚ):ℝ) := by
    gcongr
  have h2 : (4418770.71687186:ℝ) / Real.sqrt ((549331014.8289410098120626:ℚ):ℝ)
      ≤ 4418770.71687186 / 23437.8116476120910 := by
    gcongr
  have h3 : (4418770.71687186:ℝ) / 23437.8116476120914
      > 188.53171035368624 - 1e-9 := by norm_num
  have h4 : (4418770.71687186:ℝ) / 23437.8116476120910
      < 188.53171035368624 + 1e-9 := by norm_num
  rw [abs_lt]
  constructor <;> linarith

/-- Without the ms/s conversion the 900 nm SNR would fall below 1, more than
100 away from the recorded value. -/
lemma snr_unconverted_900_far :
    100 < |get_signal_to_noise_unconverted 900 - 188.53171035368624| := by
  have hsum : shot_noise_sqr 900 + dark_noise_sqr + quantization_noise_sqr
      + read_noise_sqr = 544662248668770.8289410098120626 := by
    rw [show shot_noise_sqr 900 = signal 900 from rfl, signal_900_eq,
      dark_noise_sqr, quantization_noise_sqr, read_noise_sqr]
    norm_num
  have hdef : get_signal_to_noise_unconverted 900
      = ((4418770.71687186:ℚ):ℝ)
        / Real.sqrt ((544662248668770.8289410098120626:ℚ):ℝ) := by
    rw [get_signal_to_noise_unconverted, signal_900_eq, hsum]
  have hq : ((544662248668770.8289410098120626:ℚ):ℝ)
      = 544662248668770.8289410098120626 := by norm_num
  have hsig : ((4418770.71687186:ℚ):ℝ) = 4418770.71687186 := by norm_num
  have hlt : (4418770.71687186:ℝ) < Real.sqrt 544662248668770.8289410098120626 :=
    (Real.lt_sqrt (by norm_num)).mpr (by norm_num)
  have hpos : (0:ℝ) < Real.sqrt 544662248668770.8289410098120626 :=
    Real.sqrt_pos.mpr (by norm_num)
  have hu1 : get_signal_to_noise_unconverted 900 < 1 := by
    rw [hdef, hq, hsig, div_lt_one hpos]
    exact hlt
  have hu0 : 0 ≤ get_signal_to_noise_unconverted 900 := by
    rw [hdef]
    exact div_nonneg (by norm_num) (Real.sqrt_nonneg _)
  rw [abs_sub_comm, abs_of_nonneg (by linarith)]
  linarith

/-! ## Claims: signal-to-noise, unit conversion, pointing error -/

/-- Claim C1: over the whole wavelength sweep the SNR model combines its
noise sources in quadrature — signal divided by the square root of the sum of
the recorded shot, dark, quantization and read noise-squared terms — and at
900 nm it reproduces the recorded SNR 188.53171035368624 (to within 10⁻⁹,
the recorded value being the printed decimal of the computed one). -/
theorem snr_combines_noise_in_quadrature :
    (∀ w ∈ wavelength, payload.get_signal_to_noise w
        = (signal w : ℝ) / Real.sqrt ((shot_noise_sqr w : ℝ) + (dark_noise_sqr_e2 : ℝ)
            + (quantization_noise_sqr : ℝ) + (read_noise_sqr : ℝ)))
      ∧ dark_noise_sqr = 544662244000000.0
      ∧ quantization_noise_sqr = 0.1120691498120626
      ∧ read_noise_sqr = 250000.0
      ∧ snr_rec.head? = some 188.53171035368624
      ∧ |payload.get_signal_to_noise 900 - 188.53171035368624| < 1e-9 := by
  refine ⟨?_, rfl, rfl, rfl, rfl, snr_900_close⟩
  intro w hw
  rw [HyperspectralImager.get_signal_to_noise]
  norm_cast

/-- Witness for C1: the quadrature formula at the swept wavelength 900 nm. -/
theorem snr_combines_noise_in_quadrature_witness :
    (900:ℚ) ∈ wavelength
      ∧ payload.get_signal_to_noise 900
        = (signal 900 : ℝ) / Real.sqrt ((shot_noise_sqr 900 : ℝ)
            + (dark_noise_sqr_e2 : ℝ) + (quantization_noise_sqr : ℝ)
            + (read_noise_sqr : ℝ)) := by
  have hmem : (900:ℚ) ∈ wavelength := by
    rw [wavelength_eq]
    exact List.mem_cons_self _ _
  exact ⟨hmem, snr_combines_noise_in_quadrature.1 900 hmem⟩

/-- Claim C4: the dark-noise term is tagged electron² ms²/s² and is combined
with the electron²-valued terms through the exact scale factor
(1 ms / 1 s)² = 1/1000000, contributing exactly 544662244 electron²; with the
conversion the recorded 900 nm SNR is reproduced, without it the result would
be more than 100 away from the recorded value. -/
theorem noise_terms_unit_converted :
    ms_per_s ^ 2 = 1 / 1000000
      ∧ dark_noise_sqr_e2 = 544662244
      ∧ |payload.get_signal_to_noise 900 - 188.53171035368624| < 1e-9
      ∧ 100 < |get_signal_to_noise_unconverted 900 - 188.53171035368624| := by
  refine ⟨?_, ?_, snr_900_close, snr_unconverted_900_far⟩
  · rw [ms_per_s]
    norm_num
  · rw [dark_noise_sqr_e2, dark_noise_sqr, ms_per_s]
    norm_num

/-- Claim C2: the pointing-error model is the closed-form tangent formula
altitude · (tan (skew + accuracy) − tan skew); at 500 km altitude (in metres)
and zero skew it is 500000 · tan (accuracy), and over the recorded sweep of
100 accuracies from 0.0001 to 0.0991 deg it reproduces the first and last
recorded values 0.872664625998051 m and 864.8115067504572 m. -/
theorem ground_target_error_tangent_formula :
    (∀ orbital_altitude skew_angle a : ℝ,
        system.get_ground_target_error orbital_altitude skew_angle a
          = orbital_altitude * (Real.tan (skew_angle + a) - Real.tan skew_angle))
      ∧ (∀ a : ℝ, system.get_ground_target_error (500 * 1000) (deg 0) (deg a)
          = 500 * 1000 * Real.tan (deg a))
      ∧ pointing_accuracy.length = 100
      ∧ pointing_accuracy.head? = some 0.0001
      ∧ pointing_accuracy.getLast? = some 0.0991
      ∧ |system.get_ground_target_error (500 * 1000) (deg 0) (deg 0.0001)
          - 0.872664625998051| < 1e-11
      ∧ |system.get_ground_target_error (500 * 1000) (deg 0) (deg 0.0991)
          - 864.8115067504572| < 1e-2 := by
  refine ⟨fun h k a => rfl, ground_target_error_tan, ?_, ?_, ?_, ?_, ?_⟩
  · rw [pointing_accuracy_eq]; rfl
  · rw [pointing_accuracy_eq]; rfl
  · rw [pointing_accuracy_eq]; rfl
  · obtain ⟨hL, hU⟩ := ground_target_error_bracket 0.0001 (by norm_num) (by norm_num)
    have h1 : (500 * 1000 : ℝ) * (0.0001 * 3.14159265358979323846 / 180)
        > 0.872664625998051 - 1e-11 := by norm_num
    have h2 : (500 * 1000 : ℝ) * ((0.0001 * 3.14159265358979323847 / 180)
        / (1 - (0.0001 * 3.14159265358979323847 / 180) ^ 2 / 2))
        < 0.872664625998051 + 1e-11 := by norm_num
    rw [abs_lt]
    constructor <;> linarith
  · obtain ⟨hL, hU⟩ := ground_target_error_bracket 0.0991 (by norm_num) (by norm_num)
    have h1 : (500 * 1000 : ℝ) * (0.0991 * 3.14159265358979323846 / 180)
        > 864.8115067504572 - 1e-2 := by norm_num
    have h2 : (500 * 1000 : ℝ) * ((0.0991 * 3.14159265358979323847 / 180)
        / (1 - (0.0991 * 3.14159265358979323847 / 180) ^ 2 / 2))
        < 864.8115067504572 + 1e-2 := by norm_num
    rw [abs_lt]
    constructor <;> linarith

/-- Claim C10: for every positive orbital altitude and zero skew the
ground-target-error model is strictly increasing in the pointing accuracy on
[0°, 90°), vanishes at zero accuracy, and the 100 recorded values are
strictly increasing. -/
theorem ground_target_error_monotone_vanishes :
    ∀ h : ℝ, 0 < h →
      StrictMonoOn (fun a => system.get_ground_target_error h (deg 0) (deg a))
          (Set.Ico (0:ℝ) 90)
        ∧ system.get_ground_target_error h (deg 0) (deg 0) = 0
        ∧ List.Chain' (· < ·) ground_target_error_rec := by
  intro h hh
  refine ⟨?_, ?_, ?_⟩
  · intro a ha b hb hab
    simp only [HyperspectralImager.get_ground_target_error, deg_zero, Real.tan_zero,
      zero_add, sub_zero]
    have hpip : (0:ℝ) < Real.pi := Real.pi_pos
    have h1 : 0 ≤ deg a := by
      rw [deg]
      exact div_nonneg (mul_nonneg ha.1 hpip.le) (by norm_num)
    have h2 : deg b < Real.pi / 2 := by
      rw [deg]
      have hb2 := hb.2
      nlinarith
    have h3 : deg a < deg b := by
      rw [deg, deg]
      have := mul_lt_mul_of_pos_right hab hpip
      linarith
    exact mul_lt_mul_of_pos_left
      (Real.tan_lt_tan_of_nonneg_of_lt_pi_div_two h1 h2 h3) hh
  · simp [HyperspectralImager.get_ground_target_error, deg_zero, Real.tan_zero]
  · norm_num [ground_target_error_rec, List.chain'_cons]

/-- Witness for C10: the tradebook altitude 500 km (in metres) is positive. -/
theorem ground_target_error_monotone_vanishes_witness :
    (0:ℝ) < 500 * 1000
      ∧ (StrictMonoOn
            (fun a => system.get_ground_target_error (500 * 1000) (deg 0) (deg a))
            (Set.Ico (0:ℝ) 90)
          ∧ system.get_ground_target_error (500 * 1000) (deg 0) (deg 0) = 0
          ∧ List.Chain' (· < ·) ground_target_error_rec) :=
  ⟨by norm_num, ground_target_error_monotone_vanishes (500 * 1000) (by norm_num)⟩

end Architect
